import Mathlib

/-
Verification of the `lasagne.layers` package module (`lasagne/layers/__init__.py`)
against its natural-language specification.

The module body of `lasagne/layers/__init__.py` is a documentation string
followed by ten wildcard (`from .m import *`) imports.  We embed the module
body as a list of top-level Python statements, and embed the Python semantics
of sequential wildcard imports (namespace building with later bindings
shadowing earlier ones, and eager propagation of import failures).

Behaviour that the docstring describes but whose code lives in the submodules
(parameter creation, graph traversal, the deterministic flag, DAG
construction) is modelled from the specification text; those definitions say
so in their doc comments.
-/

set_option autoImplicit false

namespace Lasagne

universe u

/-- A top-level Python statement, at the granularity needed to embed the
module body of `lasagne/layers/__init__.py`.  Constructors cover the statement
kinds the file could have contained: a documentation string, a wildcard
re-export (`from .m import *`), a plain import, a function definition, a class
definition, an assignment, a `raise`, a `try`/`except` block, and a use of a
concurrency primitive (thread or lock creation). -/
inductive Stmt where
  | docstring (text : String)
  | importStar (module : String)
  | importPlain (module : String)
  | defFun (name : String)
  | defClass (name : String)
  | assign (name : String)
  | raiseStmt (excName : String)
  | tryExceptStmt
  | concurrencyPrimitive (kind : String)
  deriving DecidableEq

/-- First line of the module docstring of `lasagne/layers/__init__.py`
(the full text is prose describing usage conventions). -/
def layersDocText : String :=
  "The layers module provides various classes representing the layers of a neural network. All of them are subclasses of the Layer base class."

/-- The ten submodules wildcard-imported by `lasagne/layers/__init__.py`,
in source order. -/
def layerSubmodules : List String :=
  ["base", "helper", "input", "dense", "noise", "conv", "pool", "shape",
   "merge", "normalization"]

/-- The module body of `lasagne/layers/__init__.py`: the docstring followed by
the ten wildcard imports, in source order. -/
def layersModuleBody : List Stmt :=
  Stmt.docstring layersDocText :: layerSubmodules.map Stmt.importStar

/-- Is the statement an import of any kind? -/
def isImportStmt : Stmt → Bool
  | Stmt.importStar _ => true
  | Stmt.importPlain _ => true
  | _ => false

/-- The modules wildcard-imported by a module body, in order. -/
def starImports (body : List Stmt) : List String :=
  body.filterMap fun s =>
    match s with
    | Stmt.importStar m => some m
    | _ => none

/-- Does the statement define a function, class, or variable of its own? -/
def definesOwnName : Stmt → Bool
  | Stmt.defFun _ => true
  | Stmt.defClass _ => true
  | Stmt.assign _ => true
  | _ => false

/-- Does the statement raise an exception, define an exception-handling
branch, or define a (possibly exception) class? -/
def errorRelated : Stmt → Bool
  | Stmt.raiseStmt _ => true
  | Stmt.tryExceptStmt => true
  | Stmt.defClass _ => true
  | _ => false

/-- Does the statement define or use a concurrency primitive? -/
def usesConcurrency : Stmt → Bool
  | Stmt.concurrencyPrimitive _ => true
  | _ => false

/-! ### Python semantics of sequential wildcard imports

A namespace is an association list from names to bindings.  Executing
`from .m import *` binds, in order, every name the submodule `m` star-exports,
overwriting any existing binding of the same name.  The generic binding type
`V` stands for the Python objects being bound. -/

variable {V : Type u}

/-- Bind `k` to `v` in the namespace, overwriting an existing binding of `k`
(and otherwise appending the new binding). -/
def setBinding : List (String × V) → String → V → List (String × V)
  | [], k, v => [(k, v)]
  | (k2, v2) :: rest, k, v =>
    if k2 = k then (k, v) :: rest else (k2, v2) :: setBinding rest k v

/-- Look up the binding of `k` in a namespace. -/
def lookupBinding : List (String × V) → String → Option V
  | [], _ => none
  | (k2, v) :: rest, k => if k2 = k then some v else lookupBinding rest k

/-- Execute one wildcard import: bind every star-export of the submodule into
the namespace, in export order. -/
def importStarInto (ns : List (String × V)) (ex : List (String × V)) :
    List (String × V) :=
  ex.foldl (fun acc kv => setBinding acc kv.1 kv.2) ns

/-- Execute the wildcard imports of the given modules in order, starting from
the empty namespace.  `starExports m` is the list of name/binding pairs the
submodule `m` star-exports. -/
def runStarImports (starExports : String → List (String × V))
    (mods : List String) : List (String × V) :=
  mods.foldl (fun acc m => importStarInto acc (starExports m)) []

/-- The binding a single module contributes for the name `k`: its last
star-export of that name, if any. -/
def moduleBinding : List (String × V) → String → Option V
  | [], _ => none
  | (k2, v) :: rest, k =>
    match moduleBinding rest k with
    | some v2 => some v2
    | none => if k2 = k then some v else none

/-- Last-import-wins resolution of the name `k` across the modules in import
order: the binding of the last module in the list that exports `k`. -/
def lastImportWins (starExports : String → List (String × V))
    (mods : List String) (k : String) : Option V :=
  mods.foldl
    (fun acc m =>
      match moduleBinding (starExports m) k with
      | some v => some v
      | none => acc)
    none

/-! ### Python semantics of eager sequential imports with failure

Importing the package executes the ten wildcard imports eagerly, in order.
Importing a submodule may fail (for example because a dependency is missing);
`tryImport m` is either the star-exports of `m` or the import error raised. -/

/-- Execute the wildcard imports of the given modules in order, accumulating
the namespace; the first submodule whose import fails aborts the whole
package import with that error, so no namespace is produced. -/
def importAllModules (tryImport : String → Except String (List (String × V))) :
    List String → List (String × V) → Except String (List (String × V))
  | [], ns => Except.ok ns
  | m :: ms, ns =>
    match tryImport m with
    | Except.error e => Except.error e
    | Except.ok ex => importAllModules tryImport ms (importStarInto ns ex)

/-- The error raised by the first module in the list whose import fails,
if any. -/
def firstImportError (tryImport : String → Except String (List (String × V))) :
    List String → Option String
  | [] => none
  | m :: ms =>
    match tryImport m with
    | Except.error e => some e
    | Except.ok _ => firstImportError tryImport ms

/-- A concrete import behaviour for the witness: the submodule pool fails
to load (as when a dependency is missing) and every other submodule imports
with no star-exports. -/
def poolImportFails (m : String) : Except String (List (String × Nat)) :=
  if m = "pool" then Except.error "ImportError: no module named pool"
  else Except.ok []

/-! ### Parameter creation (modelled from the spec)

`create_param` itself lives in `lasagne.layers.base`, which is not part of
the provided source; only the module docstring (Initializing parameters)
describes it. -/

/-- Modelled from the spec: the four ways a trainable parameter may be
supplied to a layer constructor (`create_param` in `lasagne.layers.base` is
not in the provided source).  A parameter is a pre-existing shared variable,
a raw numeric array, a callable producing values from a shape, or None.
`V` stands for the numeric array type. -/
inductive ParamSpec (V : Type u) where
  | sharedVariable (id : Nat) (vals : V)
  | rawArray (vals : V)
  | callableInit (f : List Nat → V)
  | noneParam

/-- A Theano shared variable: an identity plus the values it holds. -/
structure SharedVar (V : Type u) where
  id : Nat
  vals : V
  deriving DecidableEq

/-- Modelled from the spec: `create_param` (from `lasagne.layers.base`, not
in the provided source).  Given a parameter specification, the desired shape,
and the next fresh shared-variable identity, it returns the parameter
variable (or none when the parameter is omitted) together with the next
fresh identity.  A pre-existing shared variable is used unchanged; a raw
array yields a newly created shared variable initialized from the array; a
callable is invoked with the desired shape and a new shared variable is
initialized with the returned values; None omits the parameter variable. -/
def create_param (spec : ParamSpec V) (shape : List Nat) (freshId : Nat) :
    Option (SharedVar V) × Nat :=
  match spec with
  | ParamSpec.sharedVariable i vals => (some ⟨i, vals⟩, freshId)
  | ParamSpec.rawArray vals => (some ⟨freshId, vals⟩, freshId + 1)
  | ParamSpec.callableInit f => (some ⟨freshId, f shape⟩, freshId + 1)
  | ParamSpec.noneParam => (none, freshId)

/-! ### Output computation over the layer graph (modelled from the spec)

The `Layer` base class and `get_output` live in submodules not part of the
provided source; the docstring (Propagating data through layers) describes
them. -/

/-- Modelled from the spec: a node of the layer graph (`Layer` subclasses
live in the submodules, not in the provided source).  A layer is either an
input layer carrying a value, a single-input layer, or a two-input merge
layer; each non-input layer computes its output from its incoming outputs
and the keyword arguments it receives.  `K` is the type of keyword-argument
assignments and `W` the type of symbolic values. -/
inductive LayerNode (K W : Type u) where
  | inputLayer (value : W)
  | unaryLayer (incoming : LayerNode K W) (f : K → W → W)
  | mergeLayer (left : LayerNode K W) (right : LayerNode K W) (f : K → W → W → W)

variable {K W : Type u}

/-- Modelled from the spec: `get_output` traverses the network graph from the
given output layer, computing each layer output from its incoming layer
outputs and passing the keyword arguments along to every layer. -/
def get_output (kwargs : K) : LayerNode K W → W
  | LayerNode.inputLayer v => v
  | LayerNode.unaryLayer inc f => f kwargs (get_output kwargs inc)
  | LayerNode.mergeLayer a b f =>
    f kwargs (get_output kwargs a) (get_output kwargs b)

/-- The keyword-argument assignment received by each layer in the graph
during a `get_output` traversal, in traversal order. -/
def kwargsTrace (kwargs : K) : LayerNode K W → List K
  | LayerNode.inputLayer _ => [kwargs]
  | LayerNode.unaryLayer inc _ => kwargs :: kwargsTrace kwargs inc
  | LayerNode.mergeLayer a b _ =>
    kwargs :: (kwargsTrace kwargs a ++ kwargsTrace kwargs b)

/-- The number of layers in the traversed graph. -/
def layerCount : LayerNode K W → Nat
  | LayerNode.inputLayer _ => 1
  | LayerNode.unaryLayer inc _ => layerCount inc + 1
  | LayerNode.mergeLayer a b _ => layerCount a + layerCount b + 1

/-! ### Deterministic mode (modelled from the spec)

Dropout and the deterministic keyword live in `lasagne.layers.noise`, which
is not part of the provided source. -/

/-- The keyword arguments of an output computation: the deterministic flag
and the seed of the random number stream feeding stochastic layers. -/
structure OutputOpts where
  deterministic : Bool
  rngSeed : Nat
  deriving DecidableEq

/-- Modelled from the spec: a network of layers including stochastic ones
(the dropout layer of `lasagne.layers.noise` is not in the provided source).
An input layer, a dense layer with integer weight and bias, or a dropout
layer with drop parameter `p`. -/
inductive StochLayer where
  | inputLayer
  | denseLayer (incoming : StochLayer) (w : Int) (b : Int)
  | dropoutLayer (incoming : StochLayer) (p : Nat)
  deriving DecidableEq

/-- The dropout mask drawn from the random stream: whether the unit is
dropped, as a function of the seed and the drop parameter. -/
def dropoutMask (seed p : Nat) : Bool :=
  seed % (p + 2) == 0

/-- Modelled from the spec: output computation through a network with
stochastic layers.  A dropout layer passes its input through unchanged when
`deterministic` is true, and otherwise drops it according to a mask drawn
from the random stream. -/
def stoch_output (opts : OutputOpts) (x : Int) : StochLayer → Int
  | StochLayer.inputLayer => x
  | StochLayer.denseLayer inc w b => w * stoch_output opts x inc + b
  | StochLayer.dropoutLayer inc p =>
    let y := stoch_output opts x inc
    if opts.deterministic then y
    else if dropoutMask opts.rngSeed p then 0 else y

/-! ### DAG structure of layer references (modelled from the spec)

The `Layer` constructor stores references to the already-constructed input
layers; it lives in `lasagne.layers.base`, not in the provided source. -/

/-- A finite graph of layer references: entry `i` of the list holds the
indices of the input layers that layer `i` references.  Indices are
construction order: layer `0` was constructed first. -/
abbrev LayerRefGraph : Type := List (List Nat)

/-- Modelled from the spec: a layer constructor only receives layer objects
that already exist, so every layer references only previously constructed
layers.  This predicate states that each entry references only strictly
smaller indices; `start` is the index of the first entry. -/
def referencesEarlierFrom : Nat → LayerRefGraph → Bool
  | _, ([] : List (List Nat)) => true
  | i, l :: rest =>
    l.all (fun j => decide (j < i)) && referencesEarlierFrom (i + 1) rest

/-- Every layer of the graph references only previously constructed
layers. -/
def referencesEarlier (net : LayerRefGraph) : Bool :=
  referencesEarlierFrom 0 net

/-- Layer `i` references layer `j` as one of its inputs. -/
def hasEdge (net : LayerRefGraph) (i j : Nat) : Bool :=
  decide (j ∈ (net : List (List Nat)).getD i [])

/-- The list of layer indices is a chain of references: each one references
the next. -/
def isChain (net : LayerRefGraph) : List Nat → Bool
  | [] => true
  | [_] => true
  | i :: j :: rest => hasEdge net i j && isChain net (j :: rest)

/-- The path witnesses a reference cycle: it is a chain starting at `i` that
reaches `i` again. -/
def witnessesCycle (net : LayerRefGraph) : List Nat → Bool
  | [] => false
  | i :: rest => isChain net (i :: rest) && decide (i ∈ rest)

theorem lookupBinding_setBinding (ns : List (String × V)) (k2 k : String) (v : V) :
    lookupBinding (setBinding ns k2 v) k =
      if k2 = k then some v else lookupBinding ns k := by
  induction ns with
  | nil =>
    by_cases h : k2 = k <;> simp [setBinding, lookupBinding, h]
  | cons kv rest ih =>
    obtain ⟨k3, v3⟩ := kv
    by_cases h32 : k3 = k2
    · subst h32
      by_cases h3 : k3 = k <;> simp [setBinding, lookupBinding, h3]
    · by_cases h3 : k3 = k
      · subst h3
        have h2 : ¬ k2 = k3 := fun h => h32 h.symm
        simp [setBinding, lookupBinding, h32, h2]
      · simp [setBinding, lookupBinding, h32, h3, ih]

theorem lookupBinding_importStarInto (ex : List (String × V))
    (ns : List (String × V)) (k : String) :
    lookupBinding (importStarInto ns ex) k =
      match moduleBinding ex k with
      | some v => some v
      | none => lookupBinding ns k := by
  induction ex generalizing ns with
  | nil => simp [importStarInto, moduleBinding]
  | cons kv rest ih =>
    obtain ⟨k2, v⟩ := kv
    have step : importStarInto ns ((k2, v) :: rest) =
        importStarInto (setBinding ns k2 v) rest := rfl
    rw [step, ih, lookupBinding_setBinding]
    by_cases h : k2 = k <;>
      cases hmb : moduleBinding rest k <;>
      simp [moduleBinding, hmb, h]

theorem lookupBinding_runStarImports_fold
    (starExports : String → List (String × V)) (k : String)
    (mods : List String) (ns : List (String × V)) :
    lookupBinding (mods.foldl (fun acc m => importStarInto acc (starExports m)) ns) k =
      mods.foldl
        (fun acc m =>
          match moduleBinding (starExports m) k with
          | some v => some v
          | none => acc)
        (lookupBinding ns k) := by
  induction mods generalizing ns with
  | nil => rfl
  | cons m rest ih =>
    simp only [List.foldl_cons]
    rw [ih, lookupBinding_importStarInto]

/-- C8: resolving any name in the namespace produced by executing the ten
wildcard imports of `lasagne/layers/__init__.py` in source order gives
exactly the last-import-wins resolution across the submodules (so a later
submodule shadows an earlier one that exports the same name, with
normalization imported last and base first), for every choice of submodule
star-exports. -/
theorem layers_namespace_is_last_import_wins
    (starExports : String → List (String × V)) (k : String) :
    lookupBinding (runStarImports starExports layerSubmodules) k =
      lastImportWins starExports layerSubmodules k ∧
    layerSubmodules.getLast? = some "normalization" ∧
    layerSubmodules.head? = some "base" := by
  refine ⟨?_, rfl, rfl⟩
  have h := lookupBinding_runStarImports_fold starExports k layerSubmodules
    ([] : List (String × V))
  simpa [runStarImports, lastImportWins, lookupBinding] using h

/-- C1: the module body of `lasagne.layers` wildcard-imports exactly the ten
submodules base, helper, input, dense, noise, conv, pool, shape, merge,
normalization, in that order, and every import statement in the body is one
of these wildcard imports (no other imports are performed). -/
theorem layers_reexports_exactly_ten_submodules :
    starImports layersModuleBody = layerSubmodules ∧
    layersModuleBody.filter isImportStmt = layerSubmodules.map Stmt.importStar ∧
    layerSubmodules =
      ["base", "helper", "input", "dense", "noise", "conv", "pool", "shape",
       "merge", "normalization"] :=
  ⟨rfl, rfl, rfl⟩

/-- C2: the module body consists solely of a documentation string followed by
the wildcard re-export imports, and contains no statement defining a
function, class, or variable of its own. -/
theorem layers_module_body_is_doc_and_imports :
    layersModuleBody = Stmt.docstring layersDocText :: layerSubmodules.map Stmt.importStar ∧
    layersModuleBody.all (fun s => definesOwnName s = false) :=
  ⟨rfl, rfl⟩

/-- C7: the module body raises no exception, defines no exception type (no
class definition at all), and contains no error-handling branch. -/
theorem layers_module_has_no_error_taxonomy :
    layersModuleBody.filter errorRelated = [] :=
  rfl

/-- C10: no statement of the module body defines or uses a concurrency
primitive (no thread, lock, or asynchronous construct appears). -/
theorem layers_module_has_no_concurrency_primitive :
    layersModuleBody.filter usesConcurrency = [] :=
  rfl

theorem importAllModules_of_firstImportError
    (tryImport : String → Except String (List (String × V)))
    (mods : List String) (ns : List (String × V)) (e : String)
    (h : firstImportError tryImport mods = some e) :
    importAllModules tryImport mods ns = Except.error e := by
  induction mods generalizing ns with
  | nil => simp [firstImportError] at h
  | cons m ms ih =>
    cases htm : tryImport m with
    | error e2 =>
      simp only [firstImportError, htm, Option.some.injEq] at h
      simp [importAllModules, htm, h]
    | ok ex =>
      simp only [firstImportError, htm] at h
      simp only [importAllModules, htm]
      exact ih _ h

/-- C9: importing `lasagne.layers` executes the ten submodule imports eagerly
in order, so if a submodule fails to import, the import of the whole package
raises that error (the error of the first failing submodule) and produces no
namespace at all. -/
theorem layers_package_import_fails_eagerly
    (tryImport : String → Except String (List (String × V))) (e : String)
    (h : firstImportError tryImport layerSubmodules = some e) :
    importAllModules tryImport layerSubmodules [] = Except.error e :=
  importAllModules_of_firstImportError tryImport layerSubmodules [] e h

/-- Witness for C9: with the submodule pool failing to load and all others
loading cleanly, the package import raises exactly the pool error. -/
theorem layers_package_import_fails_eagerly_witness :
    firstImportError poolImportFails layerSubmodules =
      some "ImportError: no module named pool" ∧
    importAllModules poolImportFails layerSubmodules [] =
      Except.error "ImportError: no module named pool" :=
  ⟨by decide,
   layers_package_import_fails_eagerly poolImportFails
     "ImportError: no module named pool" (by decide)⟩

/-- C3: a trainable parameter may be supplied in exactly four ways: a
pre-existing shared variable is used unchanged (same identity, same values,
no fresh variable allocated); a raw numeric array causes a new shared
variable to be created and initialized from the array; a callable is invoked
with the desired shape and a new shared variable is initialized with the
returned values; and None causes the parameter variable to be omitted. -/
theorem create_param_four_supply_modes (i freshId : Nat) (vals : V)
    (shape : List Nat) (f : List Nat → V) :
    create_param (ParamSpec.sharedVariable i vals) shape freshId =
      (some ⟨i, vals⟩, freshId) ∧
    create_param (ParamSpec.rawArray vals) shape freshId =
      (some ⟨freshId, vals⟩, freshId + 1) ∧
    create_param (ParamSpec.callableInit f) shape freshId =
      (some ⟨freshId, f shape⟩, freshId + 1) ∧
    create_param (ParamSpec.noneParam : ParamSpec V) shape freshId =
      (none, freshId) :=
  ⟨rfl, rfl, rfl, rfl⟩

/-- C4: `get_output` traverses the network graph computing each layer output
from its incoming layer outputs, and the keyword arguments passed to it are
propagated unchanged to every layer in the traversed graph: the trace of
keyword arguments received by the layers is the given assignment repeated
once per traversed layer. -/
theorem get_output_propagates_kwargs_to_all_layers (kwargs : K)
    (l : LayerNode K W) :
    kwargsTrace kwargs l = List.replicate (layerCount l) kwargs := by
  induction l with
  | inputLayer v => rfl
  | unaryLayer inc f ih =>
    show kwargs :: kwargsTrace kwargs inc =
      List.replicate (layerCount inc + 1) kwargs
    rw [ih, List.replicate_succ]
  | mergeLayer a b f iha ihb =>
    show kwargs :: (kwargsTrace kwargs a ++ kwargsTrace kwargs b) =
      List.replicate (layerCount a + layerCount b + 1) kwargs
    rw [iha, ihb, List.replicate_succ, List.replicate_add]

/-- C5: when the deterministic keyword argument is true, all stochastic
behaviour is disabled: a dropout layer passes its input through unchanged,
and the network output does not depend on the random seed, so two
evaluations of the same network on the same input yield identical
outputs. -/
theorem deterministic_output_is_reproducible :
    (∀ (l : StochLayer) (x : Int) (s1 s2 : Nat),
      stoch_output ⟨true, s1⟩ x l = stoch_output ⟨true, s2⟩ x l) ∧
    (∀ (l : StochLayer) (p : Nat) (x : Int) (s : Nat),
      stoch_output ⟨true, s⟩ x (StochLayer.dropoutLayer l p) =
        stoch_output ⟨true, s⟩ x l) := by
  constructor
  · intro l x s1 s2
    induction l with
    | inputLayer => rfl
    | denseLayer inc w b ih => simp [stoch_output, ih]
    | dropoutLayer inc p ih => simp [stoch_output, ih]
  · intro l p x s
    simp [stoch_output]

theorem referencesEarlierFrom_edge_lt (net : List (List Nat)) :
    ∀ (k i j : Nat), referencesEarlierFrom k net = true →
      j ∈ net.getD i [] → j < k + i := by
  induction net with
  | nil =>
    intro k i j _ hmem
    simp [List.getD] at hmem
  | cons l rest ih =>
    intro k i j h hmem
    simp only [referencesEarlierFrom, Bool.and_eq_true] at h
    cases i with
    | zero =>
      have := List.all_eq_true.mp h.1 j hmem
      simpa using this
    | succ i2 =>
      have := ih (k + 1) i2 j h.2 (by simpa using hmem)
      omega

theorem hasEdge_lt (net : LayerRefGraph) (i j : Nat)
    (hwf : referencesEarlier net = true) (he : hasEdge net i j = true) :
    j < i := by
  have hmem : j ∈ (net : List (List Nat)).getD i [] := of_decide_eq_true he
  have := referencesEarlierFrom_edge_lt net 0 i j hwf hmem
  omega

theorem isChain_elements_lt (net : LayerRefGraph)
    (hwf : referencesEarlier net = true) :
    ∀ (rest : List Nat) (i : Nat), isChain net (i :: rest) = true →
      ∀ x ∈ rest, x < i := by
  intro rest
  induction rest with
  | nil =>
    intro i _ x hx
    simp at hx
  | cons j rest2 ih =>
    intro i hch x hx
    simp only [isChain, Bool.and_eq_true] at hch
    have hji : j < i := hasEdge_lt net i j hwf hch.1
    rcases List.mem_cons.mp hx with hxj | hx2
    · omega
    · have := ih j hch.2 x hx2
      omega

/-- C6: if every layer references only previously constructed layers (each
entry of the reference graph points to strictly smaller indices, as layer
construction enforces), then the graph of layer references contains no
cycle: no chain of references starting at a layer ever reaches that layer
again. -/
theorem layer_reference_graph_is_acyclic (net : LayerRefGraph)
    (p : List Nat) (hwf : referencesEarlier net = true) :
    witnessesCycle net p = false := by
  cases p with
  | nil => rfl
  | cons i rest =>
    cases hch : isChain net (i :: rest) with
    | false => simp [witnessesCycle, hch]
    | true =>
      simp only [witnessesCycle, hch, Bool.true_and]
      rw [decide_eq_false_iff_not]
      intro hmem
      exact absurd (isChain_elements_lt net hwf rest i hch i hmem)
        (lt_irrefl i)

/-- Witness for C6: a three-layer network whose third layer merges the first
two (the first layer feeds two different layers) references only earlier
layers, and the candidate path 2, 1, 2 is no cycle. -/
theorem layer_reference_graph_is_acyclic_witness :
    referencesEarlier [[], [0], [0, 1]] = true ∧
    witnessesCycle [[], [0], [0, 1]] [2, 1, 2] = false :=
  ⟨by decide,
   layer_reference_graph_is_acyclic [[], [0], [0, 1]] [2, 1, 2] (by decide)⟩

end Lasagne
